import Mathlib

/-!
Verification of the spanish-chatbot repository (FastAPI WebSocket conversation
server `simple_server.py` plus the SQLite persistence layer `database.py`).

The Lean definitions below are a shallow embedding of the Python source:
pure string assembly becomes Lean string functions, the per-connection
conversation loop becomes explicit state passing over an in-memory history
list, SQLite tables become lists of records, and provider/library calls that
can raise become `Except`-valued parameters.
-/

namespace SpanishChatbot

/-! ## Conversation messages

The in-memory conversation history of a WebSocket connection is a Python list
of `{"role": ..., "content": ...}` dicts (`simple_server.py`, line 1580).
-/

structure Msg where
  role : String
  content : String
deriving DecidableEq, Repr

/-! ## String helpers mirroring Python primitives -/

/-- Python `str.lower` restricted to the alphabet the server works with:
ASCII letters plus the accented Spanish letters appearing in the prompts and
in the prohibited-words list. Characters outside this alphabet are unchanged,
exactly as `str.lower` leaves them for the strings this program handles. -/
def pyLowerChar (c : Char) : Char :=
  if 'A' ≤ c ∧ c ≤ 'Z' then Char.ofNat (c.toNat + 32)
  else if c = 'Á' then 'á'
  else if c = 'É' then 'é'
  else if c = 'Í' then 'í'
  else if c = 'Ó' then 'ó'
  else if c = 'Ú' then 'ú'
  else if c = 'Ñ' then 'ñ'
  else if c = 'Ü' then 'ü'
  else c

/-- Python `str.lower` applied characterwise. -/
def pyLower (s : String) : String := ⟨s.data.map pyLowerChar⟩

/-- Whether `needle` occurs as a contiguous block starting at some position
of `haystack`. -/
def substrAux (needle : List Char) : List Char → Bool
  | [] => needle.isEmpty
  | c :: rest => needle.isPrefixOf (c :: rest) || substrAux needle rest

/-- Python's substring test `needle in haystack`. -/
def containsSubstr (needle haystack : String) : Bool :=
  substrAux needle.data haystack.data

/-- Python `sep.join(parts)`. -/
def joinWith (sep : String) : List String → String
  | [] => ""
  | [x] => x
  | x :: y :: xs => x ++ sep ++ joinWith sep (y :: xs)

/-! ## Content filter (`simple_server.py` lines 1619-1627 and 1660-1668)

Both the text turn and the voice turn run the completion through the same
keyword filter: lowercase the response, scan the static prohibited-words
list, and on the first substring hit replace the whole response with a fixed
redirect sentence (`break` ends the scan). -/

def prohibitedWords : List String :=
  ["vino", "cerveza", "cervezas", "alcohol", "alcohólicas", "alcoholicas",
   "bebidas alcoholicas", "bebidas alcohólicas"]

def redirectSentence : String :=
  "Lo siento, solo puedo sugerir bebidas sin alcohol como agua, jugos, refrescos, té o café. ¿Le gustaría alguna de esas opciones?"

/-- The `for word in prohibited_words: ... break` loop: `respLower` is the
lowercased response computed once before the loop, `resp` the running value
of `bot_response`. -/
def filterLoop : List String → String → String → String
  | [], _, resp => resp
  | w :: ws, respLower, resp =>
    if containsSubstr w respLower then redirectSentence
    else filterLoop ws respLower resp

/-- The whole filtering block applied to a completion. -/
def contentFilter (resp : String) : String :=
  filterLoop prohibitedWords (pyLower resp) resp

/-- Whether some prohibited word occurs in the lowercased response. -/
def hasProhibited (resp : String) : Bool :=
  prohibitedWords.any (fun w => containsSubstr w (pyLower resp))

/-! ## History maintenance (`simple_server.py` lines 1578-1583, 1612-1636, 1653-1675)

Each loop iteration appends the user turn, obtains a completion, filters it,
appends the assistant turn, then truncates:
`if len(h) > 21: h = [h[0]] + h[-20:]`. -/

/-- `[h[0]] + h[-20:]` guarded by `len(h) > 21`. -/
def truncateHistory (h : List Msg) : List Msg :=
  if h.length > 21 then h.take 1 ++ h.drop (h.length - 20) else h

/-- One loop iteration of `ActiveConversation` after a user message
`userMsg` for which the provider chain produced the raw completion `rawBot`.
Returns the updated history and the bot text sent to the client (framed as
`bot:<text>` for text turns and as the `text` field of a `voice_response`
JSON object for voice turns — the same payload in both branches). -/
def conversationTurn (h : List Msg) (userMsg rawBot : String) : List Msg × String :=
  let bot := contentFilter rawBot
  (truncateHistory ((h ++ [⟨"user", userMsg⟩]) ++ [⟨"assistant", bot⟩]), bot)

/-- History installed right after the setup phase: the system prompt followed
by the icebreaker as the first assistant turn (lines 1580-1583). -/
def initHistory (systemPrompt icebreaker : String) : List Msg :=
  [⟨"system", systemPrompt⟩, ⟨"assistant", icebreaker⟩]

/-- Running the conversation loop over a list of turns, each turn being a
pair (user message, raw completion produced by the provider chain). -/
def runConversation (systemPrompt icebreaker : String)
    (turns : List (String × String)) : List Msg :=
  turns.foldl (fun h t => (conversationTurn h t.1 t.2).1)
    (initHistory systemPrompt icebreaker)

/-! ## Assignment records and the PARTS prompt builder
(`simple_server.py` lines 1210-1263)

An assignment arrives as a JSON dict; `build_parts_prompt` reads its fields
with `dict.get` defaults. `none` models an absent key, and the list fields
model the `[]` defaults (an absent or empty list is falsy in the `if`
guards, which the `isEmpty` tests mirror). -/

structure Assignment where
  avatar_role : Option String := none
  avatar_characteristics : List String := []
  student_objective : Option String := none
  level : Option String := none
  theme : Option String := none
  title : Option String := none
  description : Option String := none
  instructions : Option String := none
  vocab : List String := []
deriving DecidableEq, Repr

/-- `build_parts_prompt(assignment_data, level)`: the five-section PARTS
template populated from the assignment fields (the `\x7bconversation_history\x7d`
placeholder is written with escaped braces and is substituted later by
`get_ai_response`). -/
def buildPartsPrompt (ad : Assignment) (level : String) : String :=
  let persona := ad.avatar_role.getD "friendly conversation partner"
  let characteristics := ad.avatar_characteristics
  let studentObjective := ad.student_objective.getD "practice Spanish conversation"
  let recipientLevel := ad.level.getD level
  let theme := ad.theme.getD (ad.title.getD "Spanish conversation")
  let instructions := ad.instructions.getD ""
  let vocabList := ad.vocab
  let personaTraits :=
    if characteristics.isEmpty then "" else " who is " ++ joinWith ", " characteristics
  let personaSection := "P: Persona - You are a " ++ persona ++ personaTraits
  let actSection := "A: Act - Guide the student to " ++ studentObjective ++ ". " ++ instructions
  let recipientSection := "R: Recipient - " ++ recipientLevel ++ " level Spanish student"
  let themeSection :=
    if vocabList.isEmpty then "T: Theme - " ++ theme
    else "T: Theme - " ++ theme ++ ". Key vocabulary: " ++ joinWith ", " vocabList
  let structureSection :=
    "S: Structure - Natural conversation flow with appropriate vocabulary and grammar for "
      ++ recipientLevel ++ " level"
  "You are a Spanish language tutor using the PARTS framework.\n\n"
    ++ personaSection ++ "\n" ++ actSection ++ "\n" ++ recipientSection ++ "\n"
    ++ themeSection ++ "\n" ++ structureSection
    ++ "\n\nCONVERSATION GUIDELINES:\n- Maintain natural, authentic conversation flow\n- Use vocabulary and grammar appropriate for "
    ++ recipientLevel
    ++ " level\n- Provide gentle guidance and encouragement\n- No English translations or explanations\n- Focus on communication practice\n\nCurrent conversation:\n\x7bconversation_history\x7d\n\nRespond naturally in Spanish as the "
    ++ persona ++ ". Keep it conversational and engaging.\n\nResponse:"

/-! ## The completion operation `get_ai_response`
(`simple_server.py` lines 946-1030)

The two hosted providers are modelled as `Except`-valued call parameters: a
`.error` value is a raised exception, which the Python code catches with the
two `try/except` blocks. -/

/-- The `level_guidance` dict of `get_ai_response` with its
`.get(level, "")` lookup. -/
def levelGuidance (level : String) : String :=
  if level == "beginner" then
    "Use simple vocabulary, short sentences, and speak slowly. Be very encouraging and patient."
  else if level == "intermediate" then
    "Use moderate vocabulary and grammar. Provide gentle corrections and scaffold support."
  else if level == "advanced" then
    "Use complex vocabulary and nuanced expressions. Challenge with sophisticated grammar and cultural context."
  else ""

/-- One line of `formatted_history`: user turns become `Student: ...`,
assistant turns `Tutor: ...`, and the system entry is skipped. -/
def formatHistoryEntry? (m : Msg) : Option String :=
  if m.role == "user" then some ("Student: " ++ m.content)
  else if m.role == "assistant" then some ("Tutor: " ++ m.content)
  else none

def formattedHistory (h : List Msg) : List String := h.filterMap formatHistoryEntry?

/-- The generic (no-assignment) system prompt of `get_ai_response`. -/
def genericSystemPrompt (level : String) (h : List Msg) : String :=
  "You are a Spanish conversation partner.\n\nPARTS FRAMEWORK:\n- P: Persona - Friendly, encouraging conversation partner\n- A: Act - Help students practice Spanish through natural conversation\n- R: Recipient - "
    ++ level
    ++ " level student\n- T: Theme - Everyday conversations and personal interests\n- S: Structure - Natural flow with appropriate vocabulary and grammar\n\n"
    ++ levelGuidance level
    ++ "\n\nCurrent conversation:\n"
    ++ joinWith " " (formattedHistory h)
    ++ "\n\nRespond naturally in Spanish. Keep it conversational and appropriate for "
    ++ level
    ++ " level. No English translations.\n\nResponse:"

/-- Python `str.replace` (all occurrences, left to right, non-overlapping),
with the haystack length as recursion fuel. -/
def replaceAllAux (pat rep : List Char) : Nat → List Char → List Char
  | 0, s => s
  | _ + 1, [] => []
  | fuel + 1, c :: rest =>
    if pat.isPrefixOf (c :: rest) then rep ++ replaceAllAux pat rep fuel ((c :: rest).drop pat.length)
    else c :: replaceAllAux pat rep fuel rest

def replaceAll (s pat rep : String) : String :=
  ⟨replaceAllAux pat.data rep.data s.data.length s.data⟩

/-- The system prompt `get_ai_response` hands to the LearnLM provider:
the PARTS template with the conversation history substituted for the
placeholder when an assignment is attached, the generic prompt otherwise. -/
def systemPromptFor (h : List Msg) (level : String) (ad : Option Assignment) : String :=
  match ad with
  | some a =>
      replaceAll (buildPartsPrompt a level) "\x7bconversation_history\x7d"
        (joinWith " " (formattedHistory h))
  | none => genericSystemPrompt level h

/-- Sampling parameters of the OpenAI fallback call, selected by the
two-way branch on `level == "advanced"`. -/
structure SamplingParams where
  maxTokens : Nat
  temperature : Rat
  presencePenalty : Rat
  frequencyPenalty : Rat
deriving DecidableEq, Repr

def samplingParams (level : String) : SamplingParams :=
  if level == "advanced" then ⟨250, 7/10, 4/10, 2/10⟩
  else ⟨120, 8/10, 6/10, 3/10⟩

def apologySentence : String :=
  "Lo siento, estoy teniendo problemas técnicos. ¿Puedes repetir eso?"

/-- `get_ai_response(conversation_history, level, assignment_data)`.
`learnlmAvailable` models the `if learnlm_client:` truthiness test;
`primaryCall` the LearnLM `generate_content` call on the built system
prompt; `fallbackCall` the OpenAI `chat.completions.create` call on the
sampling parameters and the untouched conversation history. Any `.error`
(raised exception) is swallowed: the first `except` falls through to the
fallback block, the second returns the fixed apology sentence, so the
function always returns a plain string. -/
def getAiResponse (learnlmAvailable : Bool)
    (primaryCall : String → Except Unit String)
    (fallbackCall : SamplingParams → List Msg → Except Unit String)
    (h : List Msg) (level : String) (ad : Option Assignment) : String :=
  let primaryResult : Option String :=
    if learnlmAvailable then
      match primaryCall (systemPromptFor h level ad) with
      | .ok t => some t
      | .error _ => none
    else none
  match primaryResult with
  | some t => t
  | none =>
      match fallbackCall (samplingParams level) h with
      | .ok t => t
      | .error _ => apologySentence

/-! ## Lemmas about the filter and the history window -/

theorem filterLoop_eq (ws : List String) (lresp resp : String) :
    filterLoop ws lresp resp =
      if ws.any (fun w => containsSubstr w lresp) then redirectSentence else resp := by
  induction ws with
  | nil => simp [filterLoop]
  | cons w ws ih =>
    simp only [filterLoop, List.any_cons]
    by_cases hw : containsSubstr w lresp
    · simp [hw]
    · simp [hw, ih]

theorem contentFilter_eq (resp : String) :
    contentFilter resp = if hasProhibited resp then redirectSentence else resp := by
  simp [contentFilter, hasProhibited, filterLoop_eq]

theorem truncateHistory_append_last (l : List Msg) (x : Msg) :
    ∃ pre, truncateHistory (l ++ [x]) = pre ++ [x] := by
  unfold truncateHistory
  by_cases hlen : (l ++ [x]).length > 21
  · refine ⟨(l ++ [x]).take 1 ++ l.drop ((l ++ [x]).length - 20), ?_⟩
    rw [if_pos hlen]
    have hle : (l ++ [x]).length - 20 ≤ l.length := by
      simp only [List.length_append, List.length_singleton] at hlen ⊢
      omega
    rw [List.drop_append_of_le_length hle, List.append_assoc]
  · exact ⟨l, by rw [if_neg hlen]⟩

theorem truncateHistory_length (l : List Msg) :
    (truncateHistory l).length = if l.length > 21 then 21 else l.length := by
  unfold truncateHistory
  by_cases h : l.length > 21
  · rw [if_pos h, if_pos h]
    simp only [List.length_append, List.length_take, List.length_drop]
    omega
  · rw [if_neg h, if_neg h]

theorem truncateHistory_head? (l : List Msg) :
    (truncateHistory l).head? = l.head? := by
  unfold truncateHistory
  by_cases h : l.length > 21
  · rw [if_pos h]
    match l with
    | [] => simp at h
    | a :: t => simp
  · rw [if_neg h]

theorem conversationTurn_step (h : List Msg) (u b : String)
    (hlen : h.length ≤ 21) (hne : h ≠ []) :
    ((conversationTurn h u b).1).length ≤ 21 ∧
    ((conversationTurn h u b).1).head? = h.head? ∧
    (conversationTurn h u b).1 ≠ [] := by
  have hl : ((conversationTurn h u b).1).length ≤ 21 := by
    show (truncateHistory _).length ≤ 21
    rw [truncateHistory_length]
    by_cases hc :
        ((h ++ [Msg.mk "user" u]) ++ [Msg.mk "assistant" (contentFilter b)]).length > 21
    · rw [if_pos hc]
    · rw [if_neg hc]; omega
  have hhd : ((conversationTurn h u b).1).head? = h.head? := by
    show (truncateHistory _).head? = _
    rw [truncateHistory_head?]
    match h, hne with
    | a :: t, _ => simp
  refine ⟨hl, hhd, ?_⟩
  intro hc
  match h, hne with
  | a :: t, _ =>
    rw [hc] at hhd
    simp at hhd

theorem foldl_turns_invariant (turns : List (String × String)) :
    ∀ h : List Msg, h.length ≤ 21 → h ≠ [] →
      (turns.foldl (fun h t => (conversationTurn h t.1 t.2).1) h).length ≤ 21 ∧
      (turns.foldl (fun h t => (conversationTurn h t.1 t.2).1) h).head? = h.head? := by
  induction turns with
  | nil => exact fun h h1 _ => ⟨h1, rfl⟩
  | cons t ts ih =>
    intro h h1 h2
    have step := conversationTurn_step h t.1 t.2 h1 h2
    have := ih _ step.1 step.2.2
    simp only [List.foldl_cons]
    exact ⟨this.1, this.2.trans step.2.1⟩

/-- **C2**: invariant of the per-connection conversation loop — for any
number of turns, after each iteration's truncation step the in-memory
conversation history has at most 21 entries and the entry at index 0 is the
system prompt installed at connection setup. -/
theorem history_window_invariant (sp ice : String) (turns : List (String × String)) :
    (runConversation sp ice turns).length ≤ 21 ∧
    (runConversation sp ice turns).head? = some (Msg.mk "system" sp) := by
  have h := foldl_turns_invariant turns (initHistory sp ice)
    (by simp [initHistory]) (by simp [initHistory])
  exact ⟨h.1, h.2.trans (by simp [initHistory])⟩

/-- **C1**: in the `ActiveConversation` loop (the same filtering block runs
in the text branch and the voice branch), a completion whose lowercase form
contains a prohibited word is replaced by the fixed redirect sentence — the
replaced text is what is sent to the client and appended to the history as
the assistant turn; a completion with no prohibited word is sent unchanged. -/
theorem prohibited_content_filter (h : List Msg) (u raw : String) :
    (hasProhibited raw = true → contentFilter raw = redirectSentence) ∧
    (hasProhibited raw = false → contentFilter raw = raw) ∧
    (conversationTurn h u raw).2 = contentFilter raw ∧
    ∃ pre, (conversationTurn h u raw).1 = pre ++ [Msg.mk "assistant" (contentFilter raw)] := by
  refine ⟨fun hp => by simp [contentFilter_eq, hp], fun hp => by simp [contentFilter_eq, hp],
    rfl, ?_⟩
  exact truncateHistory_append_last (h ++ [Msg.mk "user" u]) (Msg.mk "assistant" (contentFilter raw))

/-- Witness for `prohibited_content_filter` at concrete completions: one with
a prohibited word (uppercase, exercising the case-insensitive match) and one
without. -/
theorem prohibited_content_filter_witness :
    contentFilter "Te recomiendo un VINO tinto" = redirectSentence ∧
    contentFilter "Prefiero agua con gas" = "Prefiero agua con gas" :=
  ⟨(prohibited_content_filter [] "" "Te recomiendo un VINO tinto").1 (by decide),
   (prohibited_content_filter [] "" "Prefiero agua con gas").2.1 (by decide)⟩

set_option maxRecDepth 10000

/-! ## Substring lemmas -/

theorem isPrefixOf_append_self (n b : List Char) : n.isPrefixOf (n ++ b) = true := by
  induction n with
  | nil => simp [List.isPrefixOf]
  | cons c cs ih => simp [List.isPrefixOf, ih]

theorem substrAux_here (n b : List Char) : substrAux n (n ++ b) = true := by
  match n, b with
  | [], [] => rfl
  | [], c :: r => simp [substrAux, List.isPrefixOf]
  | c :: cs, b =>
    show substrAux (c :: cs) (c :: (cs ++ b)) = true
    have hpre := isPrefixOf_append_self (c :: cs) b
    rw [List.cons_append] at hpre
    simp [substrAux, hpre]

theorem substrAux_block (a n b : List Char) : substrAux n (a ++ n ++ b) = true := by
  induction a with
  | nil => simpa using substrAux_here n b
  | cons c a ih =>
    show (n.isPrefixOf (c :: (a ++ n ++ b)) || substrAux n (a ++ n ++ b)) = true
    rw [ih, Bool.or_true]

theorem containsSubstr_of_block (w s : String) (a b : List Char)
    (h : s.data = a ++ w.data ++ b) : containsSubstr w s = true := by
  unfold containsSubstr
  rw [h]
  exact substrAux_block a w.data b

theorem joinWith_mem_split (sep : String) (l : List String) (w : String) (hw : w ∈ l) :
    ∃ a b, (joinWith sep l).data = a ++ w.data ++ b := by
  induction l with
  | nil => cases hw
  | cons x xs ih =>
    match xs with
    | [] =>
      have hx : w = x := by simpa using hw
      exact ⟨[], [], by simp [joinWith, hx]⟩
    | y :: ys =>
      rcases List.mem_cons.mp hw with hx | hxs
      · exact ⟨[], sep.data ++ (joinWith sep (y :: ys)).data, by simp [joinWith, hx]⟩
      · obtain ⟨a, b, hab⟩ := ih hxs
        exact ⟨x.data ++ sep.data ++ a, b, by simp [joinWith, hab]⟩

/-! ## C4: provider fallback chain -/

/-- **C4**: `get_ai_response` never surfaces an exception — if the LearnLM
provider is unavailable or its call raises, the OpenAI fallback is invoked
with the same conversation history; if the fallback also raises, the
returned text is exactly the fixed apology sentence, which the loop then
treats as a normal bot turn (it passes the content filter unchanged and is
appended to the history as the assistant turn), not as an error event. -/
theorem ai_response_fallback_chain (avail : Bool)
    (pc : String → Except Unit String) (fc : SamplingParams → List Msg → Except Unit String)
    (h : List Msg) (level : String) (ad : Option Assignment) (u : String)
    (hp : avail = false ∨ pc (systemPromptFor h level ad) = .error ()) :
    getAiResponse avail pc fc h level ad
        = (match fc (samplingParams level) h with
           | .ok t => t
           | .error _ => apologySentence) ∧
    (fc (samplingParams level) h = .error () →
       getAiResponse avail pc fc h level ad = apologySentence) ∧
    contentFilter apologySentence = apologySentence ∧
    (conversationTurn h u apologySentence).2 = apologySentence ∧
    ∃ pre, (conversationTurn h u apologySentence).1
            = pre ++ [Msg.mk "assistant" apologySentence] := by
  have hmain : getAiResponse avail pc fc h level ad
      = (match fc (samplingParams level) h with
         | .ok t => t
         | .error _ => apologySentence) := by
    unfold getAiResponse
    rcases hp with hp | hp
    · subst hp; rfl
    · cases havail : avail
      · rfl
      · simp [hp]
  have hfilter : contentFilter apologySentence = apologySentence := by decide
  refine ⟨hmain, fun hf => by rw [hmain, hf], hfilter, ?_, ?_⟩
  · show contentFilter apologySentence = apologySentence
    exact hfilter
  · have hlast := truncateHistory_append_last (h ++ [Msg.mk "user" u])
      (Msg.mk "assistant" (contentFilter apologySentence))
    rw [hfilter] at hlast
    exact hlast

/-- Witness for `ai_response_fallback_chain`: both providers raising yields
exactly the apology sentence. -/
theorem ai_response_fallback_chain_witness :
    getAiResponse false (fun _ => Except.error ()) (fun _ _ => Except.error ())
      [] "beginner" none = apologySentence :=
  (ai_response_fallback_chain false (fun _ => Except.error ()) (fun _ _ => Except.error ())
    [] "beginner" none "" (Or.inl rfl)).2.1 rfl

/-! ## C5: vocabulary in the built prompt -/

/-- Number of positions of `haystack` at which `needle` occurs. -/
def countOccurrences (needle : List Char) : List Char → Nat
  | [] => 0
  | c :: rest => (if needle.isPrefixOf (c :: rest) then 1 else 0) + countOccurrences needle rest

/-- An assignment whose title collides with its single vocabulary word. The
theme (defaulted from the title) and the vocabulary clause then each carry
one occurrence of `gato`. -/
def vocabOnceCounterexample : Assignment :=
  { title := some "gato", vocab := ["gato"] }

/-- **C5** counterexample: it is not true that for every assignment with a
non-empty vocabulary list the built prompt contains every vocabulary word
exactly once — for `vocabOnceCounterexample` the word `gato` occurs twice
(once in the Theme text, once in the `Key vocabulary:` clause). -/
theorem vocab_exactly_once_counterexample :
    ¬ ∀ w ∈ vocabOnceCounterexample.vocab,
        countOccurrences w.data (buildPartsPrompt vocabOnceCounterexample "beginner").data = 1 := by
  decide

/-- **C5** (amended): for every assignment with a non-empty vocabulary list
the built prompt contains the comma-joined `. Key vocabulary: ...` clause of
the Theme section — each vocabulary word contributes exactly one element of
the join — and hence contains every vocabulary word at least once; a word
can occur more than once in the full prompt when it also appears in another
populated field or inside another vocabulary word. -/
theorem parts_prompt_vocab_clause (ad : Assignment) (level : String) (hv : ad.vocab ≠ []) :
    (∃ pre post : List Char,
        (buildPartsPrompt ad level).data
          = pre ++ (". Key vocabulary: " ++ joinWith ", " ad.vocab).data ++ post) ∧
    ∀ w ∈ ad.vocab, containsSubstr w (buildPartsPrompt ad level) = true := by
  have hje : ad.vocab.isEmpty = false := by
    cases h : ad.vocab with
    | nil => exact absurd h hv
    | cons a l => rfl
  have hsplit : ∃ pre post : List Char,
      (buildPartsPrompt ad level).data
        = pre ++ (". Key vocabulary: " ++ joinWith ", " ad.vocab).data ++ post := by
    refine ⟨("You are a Spanish language tutor using the PARTS framework.\n\n"
        ++ ("P: Persona - You are a " ++ ad.avatar_role.getD "friendly conversation partner"
            ++ (if ad.avatar_characteristics.isEmpty then ""
                else " who is " ++ joinWith ", " ad.avatar_characteristics))
        ++ "\n"
        ++ ("A: Act - Guide the student to "
            ++ ad.student_objective.getD "practice Spanish conversation" ++ ". "
            ++ ad.instructions.getD "")
        ++ "\n"
        ++ ("R: Recipient - " ++ ad.level.getD level ++ " level Spanish student")
        ++ "\n"
        ++ ("T: Theme - " ++ ad.theme.getD (ad.title.getD "Spanish conversation"))).data,
      ("\n"
        ++ ("S: Structure - Natural conversation flow with appropriate vocabulary and grammar for "
            ++ ad.level.getD level ++ " level")
        ++ "\n\nCONVERSATION GUIDELINES:\n- Maintain natural, authentic conversation flow\n- Use vocabulary and grammar appropriate for "
        ++ ad.level.getD level
        ++ " level\n- Provide gentle guidance and encouragement\n- No English translations or explanations\n- Focus on communication practice\n\nCurrent conversation:\n\x7bconversation_history\x7d\n\nRespond naturally in Spanish as the "
        ++ ad.avatar_role.getD "friendly conversation partner"
        ++ ". Keep it conversational and engaging.\n\nResponse:").data, ?_⟩
    simp [buildPartsPrompt, hje]
  refine ⟨hsplit, ?_⟩
  intro w hw
  obtain ⟨pre, post, hps⟩ := hsplit
  obtain ⟨a, b, hab⟩ := joinWith_mem_split ", " ad.vocab w hw
  apply containsSubstr_of_block w _ (pre ++ (". Key vocabulary: " : String).data ++ a) (b ++ post)
  rw [hps]
  simp [hab]

/-- Witness for `parts_prompt_vocab_clause` at a concrete assignment. -/
theorem parts_prompt_vocab_clause_witness :
    containsSubstr "ensalada"
        (buildPartsPrompt { title := some "La comida", vocab := ["ensalada", "sopa"] } "intermediate")
      = true ∧
    containsSubstr "sopa"
        (buildPartsPrompt { title := some "La comida", vocab := ["ensalada", "sopa"] } "intermediate")
      = true :=
  ⟨(parts_prompt_vocab_clause { title := some "La comida", vocab := ["ensalada", "sopa"] }
      "intermediate" (by decide)).2 "ensalada" (by decide),
   (parts_prompt_vocab_clause { title := some "La comida", vocab := ["ensalada", "sopa"] }
      "intermediate" (by decide)).2 "sopa" (by decide)⟩

/-! ## C8: the beginner scenario -/

/-- The assignment of the C8 scenario: vocabulary `["gato", "perro"]` at
level `beginner`. -/
def scenarioAssignment : Assignment := { level := some "beginner", vocab := ["gato", "perro"] }

/-- **C8** counterexample: the system prompt built for the scenario
assignment contains both vocabulary words but does *not* contain the
beginner guidance fragment of `get_ai_response`'s level-guidance table —
`build_parts_prompt` never consults that table, so the scenario's claimed
conjunction is false. -/
theorem beginner_guidance_counterexample :
    ¬ (containsSubstr "gato" (buildPartsPrompt scenarioAssignment "beginner") = true ∧
       containsSubstr "perro" (buildPartsPrompt scenarioAssignment "beginner") = true ∧
       containsSubstr (levelGuidance "beginner") (buildPartsPrompt scenarioAssignment "beginner")
         = true) := by
  decide

/-- **C8** (amended): the prompt built for the scenario assignment contains
both vocabulary words, but the beginner guidance fragment only appears in
the generic no-assignment system prompt of `get_ai_response`; the
assignment-built prompt does not contain it. -/
theorem scenario_prompt_contents :
    containsSubstr "gato" (buildPartsPrompt scenarioAssignment "beginner") = true ∧
    containsSubstr "perro" (buildPartsPrompt scenarioAssignment "beginner") = true ∧
    containsSubstr (levelGuidance "beginner") (buildPartsPrompt scenarioAssignment "beginner")
      = false ∧
    systemPromptFor [] "beginner" none = genericSystemPrompt "beginner" [] ∧
    containsSubstr (levelGuidance "beginner") (genericSystemPrompt "beginner" []) = true :=
  ⟨by decide, by decide, by decide, rfl, by decide⟩

/-! ## C7: the WebSocket setup phase
(`simple_server.py` lines 1265-1583)

`websocket_endpoint` selects a level configuration from the URL level (with
`intermediate_mid` as the fallback key), then waits up to one second for an
`assignment_setup` message. A timeout, a non-JSON first message, or a JSON
message whose `type` is not `assignment_setup` all leave the connection in
generic practice mode: no assignment context, the URL level's configuration,
and nothing sent to the client for it. -/

structure LevelConfig where
  standard : String
  system_prompt : String
  icebreakers : List String
deriving DecidableEq, Repr

/-- The `level_configs` dict (`simple_server.py` lines 1343-1433). -/
def levelConfigs : List (String × LevelConfig) :=
  [("novice_low",
    { standard := "ACTFL",
      system_prompt := "Eres un tutor amigable de español para principiantes. Usa palabras y frases muy simples, presente indicativo, vocabulario básico. Habla lentamente y repite si es necesario. Enfócate en comunicación survival.",
      icebreakers := ["Hola", "¿Cómo estás?", "Me llamo...", "¿Cómo te llamas?"] }),
   ("novice_mid",
    { standard := "ACTFL",
      system_prompt := "Eres un tutor amigable de español. Usa frases cortas y simples, presente indicativo, vocabulario cotidiano. Haz preguntas básicas y da respuestas directas.",
      icebreakers := ["¡Hola! ¿Qué tal?", "¿Cómo estás hoy?", "¿De dónde eres?", "¿Qué te gusta hacer?"] }),
   ("novice_high",
    { standard := "ACTFL",
      system_prompt := "Eres un conversacional español amigable. Usa frases simples, presente y algún pretérito, vocabulario familiar. Mantén conversaciones breves sobre temas conocidos.",
      icebreakers := ["¡Hola! ¿Cómo estás?", "¿Qué tal tu día?", "¿Qué has hecho hoy?", "¿Tienes hobbies?"] }),
   ("intermediate_low",
    { standard := "ACTFL",
      system_prompt := "Eres un conversacional español natural. Usa presente, pretérito, futuro simple. Habla sobre temas personales, rutinas, experiencias. Sé espontáneo pero claro.",
      icebreakers := ["¡Hola! ¿Qué tal tu día?", "¿Qué te gustaría hacer hoy?", "¿Has practicado español antes?", "¿Qué tiempo hace donde estás?"] }),
   ("intermediate_mid",
    { standard := "ACTFL",
      system_prompt := "Eres un conversacional español fluido. Usa varios tiempos verbales, vocabulario amplio. Habla sobre opiniones, experiencias, planes futuros. Sé natural y expresivo.",
      icebreakers := ["¡Hola! ¿Cómo estás?", "¿Qué tal todo por aquí?", "¿Qué planes tienes para hoy?", "¿Algo interesante últimamente?"] }),
   ("intermediate_high",
    { standard := "ACTFL",
      system_prompt := "Eres un conversacional español avanzado. Usa todos los tiempos, vocabulario rico, expresiones idiomáticas simples. Habla sobre temas abstractos, opiniones, narrativas.",
      icebreakers := ["¡Hola! ¿Qué tal?", "¿Cómo va todo?", "¿Qué te cuenta la vida?", "¿Algo nuevo o interesante?"] }),
   ("advanced",
    { standard := "ACTFL",
      system_prompt := "Eres un conversacional español nativo. Usa lenguaje complejo, subjuntivo, condicional, vocabulario extenso, expresiones idiomáticas. Habla sobre cualquier tema con naturalidad y matices.",
      icebreakers := ["¡Hola! ¿Qué tal todo?", "¿Cómo vamos?", "¿Qué novedades tienes?", "¿Cómo te encuentras hoy?"] }),
   ("a1",
    { standard := "CEFR",
      system_prompt := "Eres un tutor de español básico. Presente simple, vocabulario elemental, frases muy cortas. Enfócate en presentaciones, información personal, entorno inmediato.",
      icebreakers := ["Hola", "Me llamo...", "¿Cómo te llamas?", "¿De dónde eres?"] }),
   ("a2",
    { standard := "CEFR",
      system_prompt := "Eres un conversacional español elemental. Frases simples, rutinas, descripciones básicas. Habla sobre familia, trabajo, tiempo libre, viajes locales.",
      icebreakers := ["¡Hola! ¿Qué tal?", "¿Cómo estás?", "¿Qué haces?", "¿Dónde vives?"] }),
   ("b1",
    { standard := "CEFR",
      system_prompt := "Eres un conversacional español intermedio. Experiencias, sueños, opiniones. Conecta ideas, explica razones. Habla sobre temas familiares y personales con algo de fluidez.",
      icebreakers := ["¡Hola! ¿Cómo estás?", "¿Qué tal tu semana?", "¿Qué te gusta hacer?", "¿Has viajado mucho?"] }),
   ("b2",
    { standard := "CEFR",
      system_prompt := "Eres un conversacional español avanzado. Argumentos, discusiones abstractas, matices. Habla con fluidez y espontaneidad sobre temas complejos.",
      icebreakers := ["¡Hola! ¿Qué tal?", "¿Cómo va todo?", "¿Qué opinas sobre...?", "¿Algo interesante últimamente?"] }),
   ("c1",
    { standard := "CEFR",
      system_prompt := "Eres un conversacional español experto. Lenguaje flexible, efectivo, social/profesional. Usa estructuras complejas, vocabulario preciso, expresiones idiomáticas.",
      icebreakers := ["¡Hola! ¿Qué tal?", "¿Cómo te encuentras?", "¿Qué te parece la situación actual?", "¿Alguna reflexión interesante?"] }),
   ("c2",
    { standard := "CEFR",
      system_prompt := "Eres un conversacional español nativo-culto. Comprende todo, distingue matices finos. Habla con precisión, fluidez, naturalidad sobre cualquier tema.",
      icebreakers := ["¡Hola! ¿Qué tal?", "¿Cómo vamos?", "¿Qué te parece...?", "¿Algún pensamiento profundo hoy?"] }),
   ("beginner",
    { standard := "ACTFL",
      system_prompt := "Eres un amigo español amigable para estudiantes de secundaria. Habla de forma natural sobre temas apropiados para menores de edad. Usa vocabulario simple y presente indicativo. Mantén las frases cortas y naturales. Sé breve y amigable. NO saludes repetidamente ni des lecciones. REGLAS DE CONTENIDO ESTRICTAS: NUNCA, BAJO NINGUNA CIRCUNSTANCIA, menciones alcohol, vino, cerveza, bebidas alcoholicas, drogas, temas sexuales, violencia, o cualquier contenido inapropiado. Si un estudiante pregunta sobre bebidas alcoholicas, responde \x27Lo siento, solo puedo sugerir bebidas sin alcohol como agua, jugos o refrescos\x27. Si un estudiante pregunta sobre temas inapropiados, redirige educativamente a temas apropiados. Solo sugiere bebidas sin alcohol (agua, jugos, refrescos).",
      icebreakers :=
        ["¡Hola! ¿Qué tal tu día?",
         "¿Has hecho algo divertido últimamente?",
         "¿Qué te gusta hacer en tu tiempo libre?",
         "¿Tienes alguna mascota? Me encantan los animales.",
         "¿Cuál es tu comida favorita? A mí me gusta la pizza.",
         "¿Qué música escuchas estos días?",
         "¿Has visto alguna película buena recientemente?",
         "¿Prefieres el verano o el invierno?",
         "¿Qué bebida te gusta? Yo soy de agua.",
         "¿Practicas algún deporte?",
         "¿Dónde te gustaría viajar?",
         "¿Tienes hermanos? A veces discuto con los míños.",
         "¿Cuál es tu color favorito? El mío es azul.",
         "Qué tal el clima donde vives?",
         "¿Qué haces normalmente los fines de semana?"] })]

/-- `config = level_configs[level] if level in level_configs else
level_configs["intermediate_mid"]` (lines 1439-1444). -/
def configFor (level : String) : LevelConfig :=
  match levelConfigs.find? (fun p => p.1 == level) with
  | some p => p.2
  | none =>
      { standard := "ACTFL",
        system_prompt := "Eres un conversacional español fluido. Usa varios tiempos verbales, vocabulario amplio. Habla sobre opiniones, experiencias, planes futuros. Sé natural y expresivo.",
        icebreakers := ["¡Hola! ¿Cómo estás?", "¿Qué tal todo por aquí?", "¿Qué planes tienes para hoy?", "¿Algo interesante últimamente?"] }

/-- Outcome of the one-second wait for the first client message: a timeout,
a first message that `json.loads` rejects, or a parsed JSON object with its
`type` field (`none` when the key is absent) and optional `assignment`
payload. -/
inductive SetupEvent where
  | timeout
  | invalidJson (raw : String)
  | message (msgType : Option String) (assignment : Option Assignment)
deriving DecidableEq, Repr

/-- The connection state after the setup phase. -/
structure SetupResult where
  isAssignment : Bool
  assignmentData : Option Assignment
  level : String
  systemPrompt : String
  errorSentToClient : Option String
deriving DecidableEq, Repr

/-- The practice-mode outcome: no assignment context, the URL level and its
configuration's system prompt, and no error event sent to the client. -/
def practiceResult (urlLevel : String) : SetupResult :=
  { isAssignment := false
    assignmentData := none
    level := urlLevel
    systemPrompt := (configFor urlLevel).system_prompt
    errorSentToClient := none }

/-- The setup phase of `websocket_endpoint`: on an `assignment_setup`
message carrying an assignment, the assignment's level overrides the URL
level and the PARTS prompt is installed; a timeout (`asyncio.TimeoutError`),
a first message `json.loads` rejects (`except Exception`), a JSON message of
another type (the `else` branch), or an `assignment_setup` message without
an assignment object (the `AttributeError` on `None.get`, also caught by
`except Exception`) all fall through to practice mode. -/
def setupPhase (urlLevel : String) (ev : SetupEvent) : SetupResult :=
  match ev with
  | .message (some t) (some a) =>
      if t == "assignment_setup" then
        let newLevel := a.level.getD urlLevel
        { isAssignment := true
          assignmentData := some a
          level := newLevel
          systemPrompt := buildPartsPrompt a newLevel
          errorSentToClient := none }
      else practiceResult urlLevel
  | _ => practiceResult urlLevel

/-- **C7**: if no client message arrives within the 1-second setup wait, or
the first message is not valid JSON, or it is JSON whose type is not
`assignment_setup`, the controller proceeds in generic practice mode — no
assignment context, no error reported to the client, and the system prompt
of the connection URL's level configuration. -/
theorem setup_fault_tolerance (urlLevel : String) (ev : SetupEvent)
    (hev : ev = .timeout ∨ (∃ raw, ev = .invalidJson raw) ∨
           (∃ t ad, ev = .message t ad ∧ t ≠ some "assignment_setup")) :
    setupPhase urlLevel ev = practiceResult urlLevel ∧
    (setupPhase urlLevel ev).isAssignment = false ∧
    (setupPhase urlLevel ev).assignmentData = none ∧
    (setupPhase urlLevel ev).errorSentToClient = none ∧
    (setupPhase urlLevel ev).systemPrompt = (configFor urlLevel).system_prompt := by
  have hpr : setupPhase urlLevel ev = practiceResult urlLevel := by
    rcases hev with h | ⟨raw, h⟩ | ⟨t, ad, h, ht⟩
    · rw [h]; rfl
    · rw [h]; rfl
    · subst h
      match t, ad, ht with
      | none, none, _ => rfl
      | none, some a, _ => rfl
      | some s, none, _ => rfl
      | some s, some a, ht =>
        have hs : (s == "assignment_setup") = false := by
          cases hb : s == "assignment_setup"
          · rfl
          · exact absurd (congrArg some (eq_of_beq hb)) ht
        simp [setupPhase, hs]
  exact ⟨hpr, by rw [hpr]; rfl, by rw [hpr]; rfl, by rw [hpr]; rfl, by rw [hpr]; rfl⟩

/-- Witness for `setup_fault_tolerance`: a connection to `/ws/beginner`
whose setup wait times out ends up in practice mode with the beginner
configuration's system prompt. -/
theorem setup_fault_tolerance_witness :
    setupPhase "beginner" SetupEvent.timeout = practiceResult "beginner" ∧
    (setupPhase "beginner" SetupEvent.timeout).systemPrompt
      = (configFor "beginner").system_prompt :=
  ⟨(setup_fault_tolerance "beginner" SetupEvent.timeout (Or.inl rfl)).1,
   (setup_fault_tolerance "beginner" SetupEvent.timeout (Or.inl rfl)).2.2.2.2⟩

/-! ## Persistence layer: assignment sessions (`database.py`)

A row of the `assignment_sessions` table, restricted to the columns the
claims concern. The SQLite `PRIMARY KEY` on `id` makes inserting a duplicate
id raise `IntegrityError` (leaving the table unchanged), which the
`sidsNodup` invariant and the duplicate guard in `createAssignmentSession`
model. -/

structure SessionRec where
  sid : String
  assignment_id : String
  student_id : String
  is_active : Bool
  submitted_for_grading : Bool
  attempt_number : Nat
deriving DecidableEq, Repr

/-- The `SELECT COUNT(*) ... WHERE assignment_id = ? AND student_id = ? AND
is_active = TRUE` query of `create_assignment_session` (lines 670-675). -/
def activeSessionCount (db : List SessionRec) (aid stid : String) : Nat :=
  (db.filter (fun s => s.assignment_id == aid && s.student_id == stid && s.is_active)).length

/-- `create_assignment_session(assignment_id, student_id, ...)` (lines
660-688): count the active sessions of the pair, insert a fresh row with
`attempt_number = count + 1` (schema defaults: `is_active TRUE`,
`submitted_for_grading FALSE`). `sid` stands for the generated `uuid4`;
`none` models the `IntegrityError` raised on a duplicate primary key. -/
def createAssignmentSession (db : List SessionRec) (aid stid sid : String) :
    Option (List SessionRec) :=
  if db.any (fun s => s.sid == sid) then none
  else some (db ++ [{ sid := sid, assignment_id := aid, student_id := stid,
                      is_active := true, submitted_for_grading := false,
                      attempt_number := activeSessionCount db aid stid + 1 }])

/-- Net effect of the two `UPDATE` statements of
`submit_session_for_grading` on one row: the target row's flag is set, any
other row sharing the (assignment, student) pair has its flag cleared, all
remaining rows are untouched. -/
def submitUpdate (sess : SessionRec) (sessionId : String) (s : SessionRec) : SessionRec :=
  if s.sid == sessionId then { s with submitted_for_grading := true }
  else if s.assignment_id == sess.assignment_id && s.student_id == sess.student_id then
    { s with submitted_for_grading := false }
  else s

/-- `submit_session_for_grading(session_id)` (lines 840-876): look the
session up by id (`False` when absent), clear the flag on every other
session of the same (assignment, student) pair, set it on the target, and
return `True`. -/
def submitSessionForGrading (db : List SessionRec) (sessionId : String) :
    List SessionRec × Bool :=
  match db.find? (fun s => s.sid == sessionId) with
  | none => (db, false)
  | some sess => (db.map (submitUpdate sess sessionId), true)

/-- `r` belongs to the (aid, stid) pair and carries the
`submitted_for_grading` flag. -/
def pairSubmitted (aid stid : String) (r : SessionRec) : Bool :=
  r.assignment_id == aid && r.student_id == stid && r.submitted_for_grading

/-- Number of sessions of the (aid, stid) pair submitted for grading. -/
def submittedCount (db : List SessionRec) (aid stid : String) : Nat :=
  (db.filter (pairSubmitted aid stid)).length

/-- Primary-key uniqueness of session ids. -/
def sidsNodup (db : List SessionRec) : Prop := (db.map (fun s => s.sid)).Nodup

/-- The mutations of the `assignment_sessions` table relevant to the
submitted-for-grading flag. -/
inductive DbOp where
  | create (aid stid sid : String)
  | submit (sid : String)
deriving DecidableEq, Repr

/-- Apply one operation; a failed insert (duplicate primary key) leaves the
table unchanged, exactly as the raised `IntegrityError` does. -/
def applyOp (db : List SessionRec) : DbOp → List SessionRec
  | .create aid stid sid => (createAssignmentSession db aid stid sid).getD db
  | .submit sid => (submitSessionForGrading db sid).1

/-- The table reached from empty by a sequence of operations. -/
def runOps (ops : List DbOp) : List SessionRec := ops.foldl applyOp []

/-! ## C6: attempt numbers -/

/-- **C6**: a freshly created session's `attempt_number` is 1 + the count of
active sessions of the same (assignment, student) pair at creation time, the
new session is active, and the active count of the pair grows by exactly one
— so attempt numbers of successively created active sessions increase by 1. -/
theorem create_session_attempt (db : List SessionRec) (aid stid sid : String)
    (hfresh : db.any (fun s => s.sid == sid) = false) :
    ∃ rec : SessionRec,
      createAssignmentSession db aid stid sid = some (db ++ [rec]) ∧
      rec.attempt_number = activeSessionCount db aid stid + 1 ∧
      rec.is_active = true ∧
      rec.submitted_for_grading = false ∧
      activeSessionCount (db ++ [rec]) aid stid = activeSessionCount db aid stid + 1 := by
  refine ⟨{ sid := sid, assignment_id := aid, student_id := stid,
            is_active := true, submitted_for_grading := false,
            attempt_number := activeSessionCount db aid stid + 1 },
    ?_, rfl, rfl, rfl, ?_⟩
  · unfold createAssignmentSession
    rw [hfresh]
    rfl
  · unfold activeSessionCount
    rw [List.filter_append]
    simp

/-- Witness for `create_session_attempt`: the first session of a pair gets
attempt number 1 and leaves the pair with one active session. -/
theorem create_session_attempt_witness :
    ∃ rec : SessionRec,
      createAssignmentSession [] "a1" "s1" "sess1" = some ([] ++ [rec]) ∧
      rec.attempt_number = activeSessionCount [] "a1" "s1" + 1 ∧
      rec.is_active = true ∧
      rec.submitted_for_grading = false ∧
      activeSessionCount ([] ++ [rec]) "a1" "s1" = activeSessionCount [] "a1" "s1" + 1 :=
  create_session_attempt [] "a1" "s1" "sess1" (by decide)

/-! ## C3: uniqueness of the submitted-for-grading session -/

theorem submitUpdate_sid (sess : SessionRec) (sid : String) (s : SessionRec) :
    (submitUpdate sess sid s).sid = s.sid := by
  unfold submitUpdate
  split
  · rfl
  · split <;> rfl

theorem pairSubmitted_submitUpdate (sess : SessionRec) (sid a st : String) (s : SessionRec) :
    pairSubmitted a st (submitUpdate sess sid s)
      = if s.sid == sid then s.assignment_id == a && s.student_id == st
        else if s.assignment_id == sess.assignment_id && s.student_id == sess.student_id then
          false
        else pairSubmitted a st s := by
  unfold submitUpdate pairSubmitted
  split
  · simp
  · split
    · simp
    · rfl

theorem filter_map_update (f : SessionRec → SessionRec) (p : SessionRec → Bool)
    (l : List SessionRec) :
    (l.map f).filter p = (l.filter (fun x => p (f x))).map f := by
  induction l with
  | nil => rfl
  | cons x xs ih =>
    cases hx : p (f x) <;> simp [List.filter_cons, hx, ih]

theorem length_filter_mono {α : Type} (p q : α → Bool) (l : List α)
    (h : ∀ x ∈ l, p x = true → q x = true) :
    (l.filter p).length ≤ (l.filter q).length := by
  induction l with
  | nil => exact Nat.le_refl 0
  | cons x xs ih =>
    have ih' := ih fun y hy => h y (List.mem_cons_of_mem x hy)
    cases hp : p x
    · cases hq : q x <;> simp [List.filter_cons, hp, hq] <;> omega
    · have hqx := h x (List.mem_cons_self x xs) hp
      simp only [List.filter_cons, hp, hqx, if_pos, List.length_cons]
      omega

theorem filter_sid_singleton (db : List SessionRec) (sid : String) (sess : SessionRec)
    (hnd : sidsNodup db) (hfind : db.find? (fun s => s.sid == sid) = some sess) :
    db.filter (fun s => s.sid == sid) = [sess] := by
  induction db with
  | nil => simp at hfind
  | cons x xs ih =>
    have hnd' : x.sid ∉ xs.map (fun s => s.sid) ∧ sidsNodup xs := by
      unfold sidsNodup at hnd
      rw [List.map_cons, List.nodup_cons] at hnd
      exact hnd
    cases hx : (x.sid == sid) with
    | false =>
      rw [List.filter_cons, if_neg (by simp [hx])]
      refine ih hnd'.2 ?_
      rwa [List.find?_cons_of_neg xs (by simp [hx])] at hfind
    | true =>
      rw [List.find?_cons_of_pos xs hx] at hfind
      have hxe : x = sess := by injection hfind
      subst hxe
      rw [List.filter_cons, if_pos hx]
      have hnil : xs.filter (fun s => s.sid == sid) = [] := by
        rw [List.filter_eq_nil_iff]
        intro s hs hss
        have hsx : s.sid = x.sid := (eq_of_beq hss).trans (eq_of_beq hx).symm
        exact hnd'.1 (hsx ▸ List.mem_map_of_mem (fun s => s.sid) hs)
      rw [hnil]

theorem mem_sid_eq (db : List SessionRec) (sid : String) (sess : SessionRec)
    (hnd : sidsNodup db) (hfind : db.find? (fun s => s.sid == sid) = some sess) :
    ∀ s ∈ db, (s.sid == sid) = true → s = sess := by
  intro s hs hsid
  have hf := filter_sid_singleton db sid sess hnd hfind
  have hm : s ∈ db.filter (fun s => s.sid == sid) := List.mem_filter.mpr ⟨hs, hsid⟩
  rw [hf] at hm
  simpa using hm

theorem submit_filter_pair (db : List SessionRec) (sid : String) (sess : SessionRec)
    (hnd : sidsNodup db) (hfind : db.find? (fun s => s.sid == sid) = some sess)
    (a st : String) (pa : (sess.assignment_id == a && sess.student_id == st) = true) :
    (db.map (submitUpdate sess sid)).filter (pairSubmitted a st)
      = [{ sess with submitted_for_grading := true }] := by
  have hkey := mem_sid_eq db sid sess hnd hfind
  rw [filter_map_update]
  have hcongr : db.filter (fun x => pairSubmitted a st (submitUpdate sess sid x))
      = db.filter (fun s => s.sid == sid) := by
    apply List.filter_congr
    intro s hs
    rw [pairSubmitted_submitUpdate]
    cases hsid : (s.sid == sid) with
    | true =>
      have hse := hkey s hs hsid
      subst hse
      simp [hsid, pa]
    | false =>
      simp only [hsid, Bool.false_eq_true, if_false]
      cases hpair : (s.assignment_id == sess.assignment_id
          && s.student_id == sess.student_id) with
      | true => simp
      | false =>
        simp only [Bool.false_eq_true, if_false]
        obtain ⟨hxa, hxs⟩ := Bool.and_eq_true_iff.mp pa
        have ha : sess.assignment_id = a := eq_of_beq hxa
        have hst : sess.student_id = st := eq_of_beq hxs
        subst ha hst
        unfold pairSubmitted
        cases h1 : (s.assignment_id == sess.assignment_id) with
        | false => simp [h1]
        | true =>
          cases h2 : (s.student_id == sess.student_id) with
          | false => simp [h1, h2]
          | true => simp [h1, h2] at hpair
  rw [hcongr, filter_sid_singleton db sid sess hnd hfind]
  have hsid0 : (sess.sid == sid) = true := by simpa using List.find?_some hfind
  simp [submitUpdate, hsid0]

theorem submit_count_le (db : List SessionRec) (sid a st : String)
    (hnd : sidsNodup db) (h1 : submittedCount db a st ≤ 1) :
    submittedCount ((submitSessionForGrading db sid).1) a st ≤ 1 := by
  cases hfind : db.find? (fun s => s.sid == sid) with
  | none =>
    have heq : (submitSessionForGrading db sid).1 = db := by
      unfold submitSessionForGrading; rw [hfind]
    rw [heq]; exact h1
  | some sess =>
    have heq : (submitSessionForGrading db sid).1 = db.map (submitUpdate sess sid) := by
      unfold submitSessionForGrading; rw [hfind]
    rw [heq]
    by_cases pa : (sess.assignment_id == a && sess.student_id == st) = true
    · unfold submittedCount
      rw [submit_filter_pair db sid sess hnd hfind a st pa]
      exact Nat.le_refl 1
    · have hkey := mem_sid_eq db sid sess hnd hfind
      unfold submittedCount at h1 ⊢
      rw [filter_map_update, List.length_map]
      refine Nat.le_trans (length_filter_mono _ _ db ?_) h1
      intro s hs hval
      rw [pairSubmitted_submitUpdate] at hval
      cases hsid : (s.sid == sid) with
      | true =>
        have hse := hkey s hs hsid
        subst hse
        rw [hsid] at hval
        simp only [if_pos] at hval
        exact absurd hval pa
      | false =>
        rw [hsid] at hval
        simp only [Bool.false_eq_true, if_false] at hval
        cases hpair : (s.assignment_id == sess.assignment_id
            && s.student_id == sess.student_id) with
        | true => rw [hpair] at hval; simp at hval
        | false =>
          rw [hpair] at hval
          simpa using hval

theorem submit_sids (db : List SessionRec) (sid : String) :
    ((submitSessionForGrading db sid).1).map (fun s => s.sid)
      = db.map (fun s => s.sid) := by
  cases hfind : db.find? (fun s => s.sid == sid) with
  | none => unfold submitSessionForGrading; rw [hfind]
  | some sess =>
    have heq : (submitSessionForGrading db sid).1 = db.map (submitUpdate sess sid) := by
      unfold submitSessionForGrading; rw [hfind]
    rw [heq, List.map_map]
    congr 1
    funext s
    exact submitUpdate_sid sess sid s

theorem create_invariant (db : List SessionRec) (aid stid sid : String)
    (h1 : sidsNodup db) (h2 : ∀ a s, submittedCount db a s ≤ 1) :
    sidsNodup ((createAssignmentSession db aid stid sid).getD db) ∧
    ∀ a s, submittedCount ((createAssignmentSession db aid stid sid).getD db) a s ≤ 1 := by
  cases hany : db.any (fun s => s.sid == sid) with
  | true =>
    have heq : (createAssignmentSession db aid stid sid).getD db = db := by
      unfold createAssignmentSession; rw [hany]; rfl
    rw [heq]; exact ⟨h1, h2⟩
  | false =>
    have heq : (createAssignmentSession db aid stid sid).getD db
        = db ++ [{ sid := sid, assignment_id := aid, student_id := stid,
                   is_active := true, submitted_for_grading := false,
                   attempt_number := activeSessionCount db aid stid + 1 }] := by
      unfold createAssignmentSession; rw [hany]; rfl
    rw [heq]
    constructor
    · unfold sidsNodup
      rw [List.map_append, List.nodup_append]
      refine ⟨h1, List.nodup_singleton _, ?_⟩
      intro x hx hmem
      have hxsid : x = sid := by simpa using hmem
      obtain ⟨s, hs, hssid⟩ := List.mem_map.mp hx
      rw [List.any_eq_false] at hany
      have hne := hany s hs
      exact hne (by rw [hssid.trans hxsid]; exact beq_self_eq_true sid)
    · intro a s
      unfold submittedCount
      rw [List.filter_append]
      have hrec : List.filter (pairSubmitted a s)
          [{ sid := sid, assignment_id := aid, student_id := stid,
             is_active := true, submitted_for_grading := false,
             attempt_number := activeSessionCount db aid stid + 1 }] = [] := by
        simp [pairSubmitted]
      rw [hrec, List.append_nil]
      exact h2 a s

theorem applyOp_invariant (db : List SessionRec) (op : DbOp)
    (h1 : sidsNodup db) (h2 : ∀ a s, submittedCount db a s ≤ 1) :
    sidsNodup (applyOp db op) ∧ ∀ a s, submittedCount (applyOp db op) a s ≤ 1 := by
  cases op with
  | create aid stid sid => exact create_invariant db aid stid sid h1 h2
  | submit sid =>
    refine ⟨?_, fun a s => submit_count_le db sid a s h1 (h2 a s)⟩
    unfold sidsNodup
    rw [show applyOp db (DbOp.submit sid) = (submitSessionForGrading db sid).1 from rfl,
      submit_sids]
    exact h1

theorem foldl_ops_invariant (ops : List DbOp) :
    ∀ db, sidsNodup db → (∀ a s, submittedCount db a s ≤ 1) →
      sidsNodup (ops.foldl applyOp db) ∧
      ∀ a s, submittedCount (ops.foldl applyOp db) a s ≤ 1 := by
  induction ops with
  | nil => exact fun db hd1 hd2 => ⟨hd1, hd2⟩
  | cons op ops ih =>
    intro db hd1 hd2
    have h := applyOp_invariant db op hd1 hd2
    simpa using ih _ h.1 h.2

/-- The table produced by creating one session of the pair (a1, s1) and
never submitting it. -/
def singleUnsubmittedDb : List SessionRec :=
  [{ sid := "sess1", assignment_id := "a1", student_id := "s1",
     is_active := true, submitted_for_grading := false, attempt_number := 1 }]

/-- **C3** counterexample: right after a session of a pair is created —
before any `submit_session_for_grading` call — zero (not exactly one)
sessions of that pair carry `submitted_for_grading = TRUE` (the schema
default is `FALSE`), so "exactly one submitted session exists per pair at
any time" fails on this reachable state. -/
theorem exactly_one_submitted_counterexample :
    createAssignmentSession [] "a1" "s1" "sess1" = some singleUnsubmittedDb ∧
    (∃ r ∈ singleUnsubmittedDb, r.assignment_id = "a1" ∧ r.student_id = "s1") ∧
    submittedCount singleUnsubmittedDb "a1" "s1" = 0 := by
  refine ⟨by decide, by decide, by decide⟩

/-- **C3** (amended): in any table reachable from empty through session
creation and grading submission, at most one session per (assignment,
student) pair carries `submitted_for_grading = TRUE`; and whenever
`submit_session_for_grading` finds the session `sess` under the given id
(so that it returns `True`), `sess` becomes the unique session of its
(assignment, student) pair whose flag is `TRUE`. -/
theorem submitted_for_grading_unique
    (ops : List DbOp) (aid stid : String)
    (db : List SessionRec) (sid : String) (sess : SessionRec)
    (hnd : sidsNodup db) (hfind : db.find? (fun s => s.sid == sid) = some sess) :
    submittedCount (runOps ops) aid stid ≤ 1 ∧
    (submitSessionForGrading db sid).2 = true ∧
    (submitSessionForGrading db sid).1.filter
        (pairSubmitted sess.assignment_id sess.student_id)
      = [{ sess with submitted_for_grading := true }] := by
  refine ⟨?_, ?_, ?_⟩
  · exact (foldl_ops_invariant ops [] (by unfold sidsNodup; exact List.nodup_nil)
      (fun a s => Nat.zero_le 1)).2 aid stid
  · unfold submitSessionForGrading; rw [hfind]
  · have heq : (submitSessionForGrading db sid).1 = db.map (submitUpdate sess sid) := by
      unfold submitSessionForGrading; rw [hfind]
    rw [heq]
    exact submit_filter_pair db sid sess hnd hfind sess.assignment_id sess.student_id
      (by simp)

/-- The table with two sessions of the pair (a1, s1), the first currently
submitted for grading. -/
def twoSessionDb : List SessionRec :=
  [{ sid := "sess1", assignment_id := "a1", student_id := "s1",
     is_active := true, submitted_for_grading := true, attempt_number := 1 },
   { sid := "sess2", assignment_id := "a1", student_id := "s1",
     is_active := true, submitted_for_grading := false, attempt_number := 2 }]

/-- Witness for `submitted_for_grading_unique`: submitting the second
session succeeds and leaves it as the unique submitted session of the
pair. -/
theorem submitted_for_grading_unique_witness :
    (submitSessionForGrading twoSessionDb "sess2").2 = true ∧
    (submitSessionForGrading twoSessionDb "sess2").1.filter (pairSubmitted "a1" "s1")
      = [{ sid := "sess2", assignment_id := "a1", student_id := "s1",
           is_active := true, submitted_for_grading := true, attempt_number := 2 }] := by
  have h := submitted_for_grading_unique [] "a1" "s1" twoSessionDb "sess2"
    { sid := "sess2", assignment_id := "a1", student_id := "s1",
      is_active := true, submitted_for_grading := false, attempt_number := 2 }
    (by unfold sidsNodup; decide) (by decide)
  exact ⟨h.2.1, h.2.2⟩

/-! ## Persistence layer: password hashing and authentication
(`database.py` lines 13-19, 262-279, 468-485)

`hashlib.sha256(...).hexdigest()` is Python standard-library code outside
this repository; it enters the model as the function parameter `sha256hex`,
and every theorem below holds for an arbitrary such function. Account rows
are structures; `dict(row)` is modelled by an explicit association list so
that removing the `password_hash` key is observable. -/

/-- A SQLite column value as `dict(row)` exposes it (text, integer — also
used for booleans — or `NULL`). -/
inductive ColVal where
  | text (s : String)
  | intv (n : Int)
  | null
deriving DecidableEq, Repr

def optVal : Option String → ColVal
  | some s => ColVal.text s
  | none => ColVal.null

structure TeacherRec where
  tid : String
  name : String
  email : String
  password_hash : String
  school : Option String
  title : Option String
  bio : Option String
  created_at : String
deriving DecidableEq, Repr

/-- `dict(row)` for a row of the `teachers` table. -/
def teacherDict (t : TeacherRec) : List (String × ColVal) :=
  [("id", ColVal.text t.tid), ("name", ColVal.text t.name),
   ("email", ColVal.text t.email), ("password_hash", ColVal.text t.password_hash),
   ("school", optVal t.school), ("title", optVal t.title), ("bio", optVal t.bio),
   ("created_at", ColVal.text t.created_at)]

structure StudentRec where
  stid : String
  name : String
  email : Option String
  password_hash : String
  grade_level : Option String
  is_active : Bool
  created_at : String
deriving DecidableEq, Repr

/-- `dict(row)` for a row of the `students` table (`email` is nullable, and
the migrated `is_active` boolean is stored as an integer). -/
def studentDict (s : StudentRec) : List (String × ColVal) :=
  [("id", ColVal.text s.stid), ("name", ColVal.text s.name),
   ("email", optVal s.email), ("password_hash", ColVal.text s.password_hash),
   ("grade_level", optVal s.grade_level), ("created_at", ColVal.text s.created_at),
   ("is_active", ColVal.intv (if s.is_active then 1 else 0))]

/-- `del d[key]` applied to a dict copy (dict keys are unique, so removing
the one binding is a filter). -/
def delKey (key : String) (d : List (String × ColVal)) : List (String × ColVal) :=
  d.filter (fun kv => kv.1 != key)

/-- `hash_password(password)`. -/
def hashPassword (sha256hex : String → String) (password : String) : String :=
  sha256hex password

/-- `verify_password(password, password_hash)`. -/
def verifyPassword (sha256hex : String → String) (password passwordHash : String) : Bool :=
  hashPassword sha256hex password == passwordHash

/-- `get_teacher_by_email`: `SELECT * FROM teachers WHERE email = ?` with
the `UNIQUE` email column, so the first match is the only one. -/
def getTeacherByEmail (db : List TeacherRec) (email : String) : Option TeacherRec :=
  db.find? (fun t => t.email == email)

/-- `get_student_by_email`; a `NULL` email never equals the parameter. -/
def getStudentByEmail (db : List StudentRec) (email : String) : Option StudentRec :=
  db.find? (fun s => s.email == some email)

/-- `authenticate_teacher(email, password)`: fetch by email, verify the
password, and on success return a copy of the row dict with the
`password_hash` key deleted (the stored row is not written to). -/
def authenticateTeacher (sha256hex : String → String) (db : List TeacherRec)
    (email password : String) : Option (List (String × ColVal)) :=
  match getTeacherByEmail db email with
  | some t =>
      if verifyPassword sha256hex password t.password_hash then
        some (delKey "password_hash" (teacherDict t))
      else none
  | none => none

/-- `authenticate_student(email, password)`, same shape as
`authenticate_teacher`. -/
def authenticateStudent (sha256hex : String → String) (db : List StudentRec)
    (email password : String) : Option (List (String × ColVal)) :=
  match getStudentByEmail db email with
  | some s =>
      if verifyPassword sha256hex password s.password_hash then
        some (delKey "password_hash" (studentDict s))
      else none
  | none => none

theorem delKey_no_key (key : String) (d : List (String × ColVal)) :
    (delKey key d).all (fun kv => kv.1 != key) = true := by
  rw [List.all_eq_true]
  intro kv hkv
  exact (List.mem_filter.mp hkv).2

/-- **C9**: `authenticate_teacher` (and likewise `authenticate_student`)
returns `None` when no account with the email exists or the password fails
verification, and otherwise returns a copy of the stored account dict with
the `password_hash` key removed; the stored record itself stays in the
table untouched (the operation reads but never writes the table). -/
theorem authenticate_removes_hash (sha : String → String)
    (tdb : List TeacherRec) (sdb : List StudentRec) (email password : String) :
    (getTeacherByEmail tdb email = none →
       authenticateTeacher sha tdb email password = none) ∧
    (∀ t, getTeacherByEmail tdb email = some t →
       (verifyPassword sha password t.password_hash = false →
          authenticateTeacher sha tdb email password = none) ∧
       (verifyPassword sha password t.password_hash = true →
          authenticateTeacher sha tdb email password
            = some (delKey "password_hash" (teacherDict t)) ∧
          (delKey "password_hash" (teacherDict t)).all (fun kv => kv.1 != "password_hash")
            = true ∧
          t ∈ tdb)) ∧
    (getStudentByEmail sdb email = none →
       authenticateStudent sha sdb email password = none) ∧
    (∀ s, getStudentByEmail sdb email = some s →
       (verifyPassword sha password s.password_hash = false →
          authenticateStudent sha sdb email password = none) ∧
       (verifyPassword sha password s.password_hash = true →
          authenticateStudent sha sdb email password
            = some (delKey "password_hash" (studentDict s)) ∧
          (delKey "password_hash" (studentDict s)).all (fun kv => kv.1 != "password_hash")
            = true ∧
          s ∈ sdb)) := by
  refine ⟨?_, ?_, ?_, ?_⟩
  · intro h
    unfold authenticateTeacher
    rw [h]
  · intro t ht
    constructor
    · intro hv
      unfold authenticateTeacher
      rw [ht]
      simp [hv]
    · intro hv
      refine ⟨?_, delKey_no_key _ _, List.mem_of_find?_eq_some ht⟩
      unfold authenticateTeacher
      rw [ht]
      simp [hv]
  · intro h
    unfold authenticateStudent
    rw [h]
  · intro s hs
    constructor
    · intro hv
      unfold authenticateStudent
      rw [hs]
      simp [hv]
    · intro hv
      refine ⟨?_, delKey_no_key _ _, List.mem_of_find?_eq_some hs⟩
      unfold authenticateStudent
      rw [hs]
      simp [hv]

def demoSha (s : String) : String := s ++ "#"

def demoTeacher : TeacherRec :=
  { tid := "t1", name := "Prof", email := "t@x", password_hash := "pw#",
    school := none, title := none, bio := none, created_at := "2024-01-01" }

def demoStudent : StudentRec :=
  { stid := "s1", name := "Ana", email := some "s@x", password_hash := "pw2#",
    grade_level := none, is_active := true, created_at := "2024-01-01" }

/-- Witness for `authenticate_removes_hash`: a correct teacher password
yields the dict without `password_hash`, a wrong student password yields
`None`. -/
theorem authenticate_removes_hash_witness :
    authenticateTeacher demoSha [demoTeacher] "t@x" "pw"
      = some (delKey "password_hash" (teacherDict demoTeacher)) ∧
    authenticateStudent demoSha [demoStudent] "s@x" "bad" = none := by
  have h1 := (authenticate_removes_hash demoSha [demoTeacher] [] "t@x" "pw").2.1
    demoTeacher (by decide)
  have h2 := (authenticate_removes_hash demoSha [] [demoStudent] "s@x" "bad").2.2.2
    demoStudent (by decide)
  exact ⟨(h1.2 (by decide)).1, h2.1 (by decide)⟩

/-- **C10**: `verify_password(p, h)` returns `True` iff `h` equals
`hash_password(p)`, and the round trip `verify_password(p,
hash_password(p))` returns `True` for every password — both for an
arbitrary hashing function standing in for the out-of-repository
`hashlib.sha256(...).hexdigest()`. -/
theorem verify_password_iff (sha256hex : String → String) (p h : String) :
    (verifyPassword sha256hex p h = true ↔ h = hashPassword sha256hex p) ∧
    verifyPassword sha256hex p (hashPassword sha256hex p) = true := by
  constructor
  · unfold verifyPassword
    rw [beq_iff_eq]
    exact eq_comm
  · unfold verifyPassword
    exact beq_self_eq_true _

end SpanishChatbot
